import Mathlib

/-!
Verification of the service-boilerplate core against its specification.

The development shallowly embeds the two core Go packages:
  * `internal/lifecycle/lifecycle.go` (namespace `Lifecycle`), and
  * `internal/scheduler/scheduler.go` (namespace `Sched`).

Go hooks and handlers are modelled by their observable outcome
(`Option String` for an error return, a dedicated outcome type for a
panic), and effectful calls to the logging and metrics collaborators are
modelled as events appended to a trace, in the exact order the Go code
performs them.  Informational log lines that carry no claim are omitted
from the traces.  Machine integers are modelled as `Int`; the one field
where 32-bit overflow could matter (`Timer.panicCount`, an `int32`
mutated with `atomic.AddInt32`) wraps explicitly via `Sched.wrap32`.
-/

namespace Lifecycle

/-- Embedding of the `task.Task` interface (`internal/task/task.go`) as the
behaviour of one task instance: its name, the error returned by its
`AfterStart` hook (`none` = success) and the error returned by its
`BeforeStop` hook (`none` = success). -/
structure Task where
  name : String
  afterStart : Option String
  beforeStop : Option String
deriving DecidableEq, Repr

/-- Observable events of a lifecycle sweep: a hook invocation on a task, or
the error log `Manager.StopAll` emits when a `BeforeStop` hook fails
(`lifecycle.go` line 65). -/
inductive LcEvent
  | afterStartCall (name : String)
  | beforeStopCall (name : String)
  | stopErrorLog (name : String) (err : String)
deriving DecidableEq, Repr

/-- Embedding of `lifecycle.Manager` (`lifecycle.go` lines 14 to 18): the
ordered task registry.  The mutex only guards the slice, which is
snapshotted before every sweep, so it has no observable effect here. -/
structure Manager where
  tasks : List Task
deriving DecidableEq, Repr

/-- `Manager.New` (`lifecycle.go` line 21): empty registry. -/
def New : Manager := ⟨[]⟩

/-- `Manager.Register` (`lifecycle.go` lines 29 to 34): appends the task to
the registry. -/
def Register (m : Manager) (t : Task) : Manager := ⟨m.tasks ++ [t]⟩

/-- Result of a lifecycle sweep: the manager state after the call, the trace
of events, and the returned error. -/
structure LcRes where
  mgr : Manager
  events : List LcEvent
  err : Option String
deriving DecidableEq, Repr

/-- The loop body of `Manager.StartAll` (`lifecycle.go` lines 43 to 48):
invoke each `AfterStart` in order; on the first failure return the wrapped
error `failed to start task NAME: ERR` immediately. -/
def startLoop : List Task → List LcEvent × Option String
  | [] => ([], none)
  | t :: ts =>
    match t.afterStart with
    | some e =>
      ([LcEvent.afterStartCall t.name],
       some ("failed to start task " ++ t.name ++ ": " ++ e))
    | none =>
      ((LcEvent.afterStartCall t.name) :: (startLoop ts).1, (startLoop ts).2)

/-- `Manager.StartAll` (`lifecycle.go` lines 37 to 51): snapshots the
registry, runs the loop over the snapshot, and never writes the registry
back. -/
def StartAll (m : Manager) : LcRes :=
  ⟨m, (startLoop m.tasks).1, (startLoop m.tasks).2⟩

/-- The loop body of `Manager.StopAll` (`lifecycle.go` lines 61 to 70),
applied to the reversed snapshot: invoke each `BeforeStop`; a failure is
logged and the sweep continues. -/
def stopLoop : List Task → List LcEvent
  | [] => []
  | t :: ts =>
    LcEvent.beforeStopCall t.name ::
      (match t.beforeStop with
       | some e => LcEvent.stopErrorLog t.name e :: stopLoop ts
       | none => stopLoop ts)

/-- `Manager.StopAll` (`lifecycle.go` lines 54 to 73): snapshots the
registry, iterates it from the last index down to the first (modelled by
iterating the reversed snapshot), and always returns `nil`. -/
def StopAll (m : Manager) : LcRes :=
  ⟨m, stopLoop m.tasks.reverse, none⟩

/-- Names of the tasks whose `BeforeStop` hook was invoked, in trace
order. -/
def beforeStopNames (evs : List LcEvent) : List String :=
  evs.filterMap (fun e =>
    match e with
    | LcEvent.beforeStopCall n => some n
    | _ => none)

theorem startLoop_ok (ts : List Task) (h : ∀ t ∈ ts, t.afterStart = none) :
    startLoop ts = (ts.map (fun t => LcEvent.afterStartCall t.name), none) := by
  induction ts with
  | nil => rfl
  | cons t ts ih =>
    have ht : t.afterStart = none := h t (List.mem_cons_self t ts)
    have ih' := ih (fun u hu => h u (List.mem_cons_of_mem t hu))
    simp [startLoop, ht, ih']

theorem startLoop_fail (pre : List Task) (bad : Task) (post : List Task)
    (e : String) (hpre : ∀ t ∈ pre, t.afterStart = none)
    (hbad : bad.afterStart = some e) :
    startLoop (pre ++ bad :: post)
      = (pre.map (fun t => LcEvent.afterStartCall t.name)
           ++ [LcEvent.afterStartCall bad.name],
         some ("failed to start task " ++ bad.name ++ ": " ++ e)) := by
  induction pre with
  | nil => simp [startLoop, hbad]
  | cons t ts ih =>
    have ht : t.afterStart = none := hpre t (List.mem_cons_self t ts)
    have ih' := ih (fun u hu => hpre u (List.mem_cons_of_mem t hu))
    simp [startLoop, ht, ih']

theorem stopLoop_names (ts : List Task) :
    beforeStopNames (stopLoop ts) = ts.map Task.name := by
  induction ts with
  | nil => rfl
  | cons t ts ih =>
    cases h : t.beforeStop <;> simp [stopLoop, beforeStopNames, h] <;>
      simpa [beforeStopNames] using ih

/-- Claim C3: `StartAll` invokes the `AfterStart` hooks sequentially in exact
registration order; on the first failure it returns immediately with a
wrapped error containing the failing task name, never invokes `AfterStart`
on any later task, and performs no stop or rollback calls on the earlier,
already-started tasks. -/
theorem lifecycle_startAll_fail_fast :
    (∀ ts : List Task, (∀ t ∈ ts, t.afterStart = none) →
        StartAll ⟨ts⟩
          = ⟨⟨ts⟩, ts.map (fun t => LcEvent.afterStartCall t.name), none⟩)
  ∧ (∀ (pre : List Task) (bad : Task) (post : List Task) (e : String),
        (∀ t ∈ pre, t.afterStart = none) → bad.afterStart = some e →
        StartAll ⟨pre ++ bad :: post⟩
          = ⟨⟨pre ++ bad :: post⟩,
             pre.map (fun t => LcEvent.afterStartCall t.name)
               ++ [LcEvent.afterStartCall bad.name],
             some ("failed to start task " ++ bad.name ++ ": " ++ e)⟩)
  ∧ (∀ (pre : List Task) (bad : Task) (post : List Task) (e n : String),
        (∀ t ∈ pre, t.afterStart = none) → bad.afterStart = some e →
        LcEvent.beforeStopCall n ∉ (StartAll ⟨pre ++ bad :: post⟩).events) := by
  refine ⟨fun ts h => ?_, fun pre bad post e hpre hbad => ?_,
          fun pre bad post e n hpre hbad => ?_⟩
  · simp [StartAll, startLoop_ok ts h]
  · simp [StartAll, startLoop_fail pre bad post e hpre hbad]
  · simp [StartAll, startLoop_fail pre bad post e hpre hbad]

/-- Witness for C3 at a concrete three-task registry in which the second
task fails to start. -/
theorem lifecycle_startAll_fail_fast_witness :
    StartAll ⟨[⟨"T1", none, none⟩, ⟨"T2", some "boom", none⟩,
               ⟨"T3", none, none⟩]⟩
      = ⟨⟨[⟨"T1", none, none⟩, ⟨"T2", some "boom", none⟩, ⟨"T3", none, none⟩]⟩,
         [LcEvent.afterStartCall "T1", LcEvent.afterStartCall "T2"],
         some "failed to start task T2: boom"⟩ := by
  have h := lifecycle_startAll_fail_fast.2.1 [⟨"T1", none, none⟩]
    ⟨"T2", some "boom", none⟩ [⟨"T3", none, none⟩] "boom"
    (by intro t ht; simp at ht; subst ht; rfl) rfl
  simpa using h

/-- Claim C4: `StopAll` invokes every registered task `BeforeStop` hook
exactly once, in the exact reverse of registration order, a hook failure
never aborts the sweep, and `StopAll` always returns `nil`. -/
theorem lifecycle_stopAll_reverse_sweep :
    ∀ ts : List Task,
      (StopAll ⟨ts⟩).err = none
      ∧ beforeStopNames (StopAll ⟨ts⟩).events = (ts.map Task.name).reverse
      ∧ (StopAll ⟨ts⟩).mgr = ⟨ts⟩ := by
  intro ts
  refine ⟨rfl, ?_, rfl⟩
  simp [StopAll, stopLoop_names]

/-- Claim C10: the `StopAll` sweep depends only on the registry contents,
not on start status: `StartAll` leaves the registry unchanged, running
`StopAll` after any `StartAll` equals running it directly, and every
registered task receives exactly as many `BeforeStop` calls as it has
registrations (so a twice-registered task is stopped twice and a task whose
start never ran is still stopped). -/
theorem lifecycle_stopAll_registry_only :
    ∀ (ts : List Task) (n : String),
      (StartAll ⟨ts⟩).mgr = ⟨ts⟩
      ∧ StopAll (StartAll ⟨ts⟩).mgr = StopAll ⟨ts⟩
      ∧ (beforeStopNames (StopAll ⟨ts⟩).events).count n
          = (ts.map Task.name).count n := by
  intro ts n
  refine ⟨rfl, rfl, ?_⟩
  simp [StopAll, stopLoop_names]

end Lifecycle

namespace Sched

/-- Two-complement wrap of an `Int` to the `int32` range, modelling the
overflow behaviour of `atomic.AddInt32` on `Timer.panicCount`. -/
def wrap32 (c : Int) : Int := (c + 2 ^ 31) % 2 ^ 32 - 2 ^ 31

/-- Outcome of one handler invocation: normal return, or abnormal
termination by `panic` carrying its payload. -/
inductive HandlerOutcome
  | ok
  | panic (msg : String)
deriving DecidableEq, Repr

/-- Whether the outcome is a panic. -/
def HandlerOutcome.isPanic : HandlerOutcome → Bool
  | HandlerOutcome.ok => false
  | HandlerOutcome.panic _ => true

/-- Observable events of the scheduler (`scheduler.go`): log lines carrying
failure information, metrics-collaborator calls, the handler invocation
itself, and the backoff sleep. -/
inductive SchedEvent
  | logInfo (msg : String)
  | logWarn (msg : String)
  | logError (msg : String) (timer : String)
  | recordTimerRun (timer : String)
  | recordTimerPanic (timer : String)
  | handlerInvoked (timer : String)
  | sleep (seconds : Int)
deriving DecidableEq, Repr

/-- `Scheduler.executeTimerWithRecovery` (`scheduler.go` lines 142 to 192)
for one tick of the timer named `name`, with `hm` = (`s.metrics != nil`),
limit `m` = `timer.maxRestarts`, backoff `b` = `timer.backoffSeconds`, and
current `c` = `timer.panicCount`.  Returns the new `panicCount` and the
event trace of the tick:
  * lines 144 to 154: if `m > 0` and `c > m`, log and skip the tick;
  * lines 184 to 190: otherwise record the run metric (when metrics are
    present) and invoke the handler;
  * lines 159 to 181: on panic the deferred recover increments
    `panicCount` by one (with `int32` wrap), logs the recovery, records the
    panic metric (when metrics are present) and sleeps `b` seconds when
    `b > 0`. -/
def executeTimerWithRecovery (hm : Bool) (name : String) (m b c : Int)
    (o : HandlerOutcome) : Int × List SchedEvent :=
  if 0 < m ∧ m < c then
    (c, [SchedEvent.logError "Timer exceeded max panic restarts, disabling" name])
  else
    (if hm then [SchedEvent.recordTimerRun name] else []) ++
        [SchedEvent.handlerInvoked name] |>
      (fun runEvs =>
        match o with
        | HandlerOutcome.ok => (c, runEvs)
        | HandlerOutcome.panic _ =>
          (wrap32 (c + 1),
           runEvs
             ++ [SchedEvent.logError "Timer panic recovered" name]
             ++ (if hm then [SchedEvent.recordTimerPanic name] else [])
             ++ (if 0 < b then [SchedEvent.sleep b] else [])))

/-- The tick loop of `Scheduler.runTimer` (`scheduler.go` lines 130 to 138)
for one timer, driven by the list of handler outcomes of the successive
ticks that fire before the run context is cancelled: each tick runs
`executeTimerWithRecovery` on the current `panicCount`.  Returns the final
`panicCount` and the concatenated trace. -/
def runTimerTicks (hm : Bool) (name : String) (m b : Int) :
    List HandlerOutcome → Int → Int × List SchedEvent
  | [], c => (c, [])
  | o :: os, c =>
    ((runTimerTicks hm name m b os (executeTimerWithRecovery hm name m b c o).1).1,
     (executeTimerWithRecovery hm name m b c o).2
       ++ (runTimerTicks hm name m b os
             (executeTimerWithRecovery hm name m b c o).1).2)

/-- Whether an event is the handler invocation itself. -/
def isHandlerInvoked : SchedEvent → Bool
  | SchedEvent.handlerInvoked _ => true
  | _ => false

/-- Number of handler invocations in a trace. -/
def execCount (evs : List SchedEvent) : Nat := evs.countP isHandlerInvoked

/-- Embedding of the `Timer` struct (`scheduler.go` lines 20 to 28).  The
handler is represented by an opaque-to-the-model numeric identifier. -/
structure TimerReg where
  name : String
  interval : Int
  handlerId : Nat
  panicCount : Int
  maxRestarts : Int
  backoffSeconds : Int
deriving DecidableEq, Repr

/-- One tick of the timer loop applied to a registry entry, updating its
`panicCount` field. -/
def tickReg (hm : Bool) (o : HandlerOutcome) (t : TimerReg) :
    TimerReg × List SchedEvent :=
  ((fun r => ({ t with panicCount := r.1 }, r.2))
    (executeTimerWithRecovery hm t.name t.maxRestarts t.backoffSeconds
      t.panicCount o))

/-- One tick of the loop of the timer named `name` within the shared
registry: only the entry with that name is touched, every sibling entry is
left exactly as it was (each loop owns its own timer fields;
`scheduler.go` lines 99 to 105 spawn one loop per timer). -/
def tickTimerNamed (hm : Bool) (o : HandlerOutcome) (name : String) :
    List TimerReg → List TimerReg × List SchedEvent
  | [] => ([], [])
  | t :: ts =>
    if t.name = name then ((tickReg hm o t).1 :: ts, (tickReg hm o t).2)
    else ((t :: (tickTimerNamed hm o name ts).1), (tickTimerNamed hm o name ts).2)

/-- Embedding of the `Scheduler` struct (`scheduler.go` lines 31 to 42).
`ctxSet` models `s.ctx != nil`, `cancelSet` models `s.cancel != nil`, and
`cancelRequested` records that `Stop` has invoked the cancel function.
The registry map is modelled as a list with unique names, in insertion
order. -/
structure Scheduler where
  timers : List TimerReg
  maxRestarts : Int
  backoffSeconds : Int
  ctxSet : Bool
  cancelSet : Bool
  cancelRequested : Bool
  activeTimers : Int
deriving DecidableEq, Repr

/-- `scheduler.New` (`scheduler.go` lines 45 to 53). -/
def New (maxRestarts backoffSeconds : Int) : Scheduler :=
  ⟨[], maxRestarts, backoffSeconds, false, false, false, 0⟩

/-- `Scheduler.AddTimer` (`scheduler.go` lines 56 to 79): rejects an
existing name with the error `timer NAME already exists` and no state
change; otherwise stores a fresh timer carrying the scheduler restart and
backoff configuration and a zero `panicCount`. -/
def AddTimer (s : Scheduler) (name : String) (interval : Int)
    (handlerId : Nat) : Scheduler × Option String :=
  if (s.timers.map TimerReg.name).contains name then
    (s, some ("timer " ++ name ++ " already exists"))
  else
    ({ s with timers := s.timers
        ++ [{ name := name, interval := interval, handlerId := handlerId,
              panicCount := 0, maxRestarts := s.maxRestarts,
              backoffSeconds := s.backoffSeconds }] },
     none)

/-- `Scheduler.GetTimerCount` (`scheduler.go` lines 222 to 226). -/
def GetTimerCount (s : Scheduler) : Nat := s.timers.length

/-- Result of `Start`: the scheduler state after the call, the names of the
execution loops spawned by this call, and the returned error. -/
structure StartRes where
  sched : Scheduler
  spawned : List String
  err : Option String
deriving DecidableEq, Repr

/-- `Scheduler.Start` (`scheduler.go` lines 82 to 113): fails with
`scheduler already running` when the run context is already set, touching
nothing; otherwise derives the run context, and (when timers exist) spawns
one loop per timer, incrementing the active-timer counter once per
loop. -/
def Start (s : Scheduler) : StartRes :=
  if s.ctxSet then ⟨s, [], some "scheduler already running"⟩
  else
    (fun s1 =>
      if s1.timers.isEmpty then ⟨s1, [], none⟩
      else ⟨{ s1 with activeTimers := s1.activeTimers + s1.timers.length },
            s1.timers.map TimerReg.name, none⟩)
    { s with ctxSet := true, cancelSet := true }

/-- Result of `Stop`: the scheduler state after the call, the trace of log
events, and the returned error. -/
structure StopRes where
  sched : Scheduler
  events : List SchedEvent
  err : Option String
deriving DecidableEq, Repr

/-- `Scheduler.Stop` (`scheduler.go` lines 195 to 219), with `drained`
telling which arm of the final `select` fires: `true` when every loop
exits before the shutdown context expires, `false` when the deadline
elapses first.  In both arms the function merely logs and returns `nil`;
it never clears `s.ctx` or `s.cancel`. -/
def Stop (s : Scheduler) (drained : Bool) : StopRes :=
  ⟨if s.cancelSet then { s with cancelRequested := true } else s,
   SchedEvent.logInfo "Stopping scheduler..." ::
     (if drained then [SchedEvent.logInfo "All timers stopped gracefully"]
      else [SchedEvent.logWarn "Timeout waiting for timers to stop"]),
   none⟩

theorem wrap32_lb (c : Int) : -2 ^ 31 ≤ wrap32 c := by
  have h := Int.emod_nonneg (c + 2 ^ 31) (b := 2 ^ 32) (by norm_num)
  unfold wrap32
  omega

theorem wrap32_ub (c : Int) : wrap32 c ≤ 2 ^ 31 - 1 := by
  have h := Int.emod_lt_of_pos (c + 2 ^ 31) (b := 2 ^ 32) (by norm_num)
  unfold wrap32
  omega

theorem wrap32_eq (c : Int) (h1 : -2 ^ 31 ≤ c) (h2 : c < 2 ^ 31) :
    wrap32 c = c := by
  have h := Int.emod_eq_of_lt (a := c + 2 ^ 31) (b := 2 ^ 32)
    (by omega) (by norm_num; omega)
  unfold wrap32
  omega

theorem tick_fst (hm : Bool) (n : String) (m b c : Int) (o : HandlerOutcome) :
    (executeTimerWithRecovery hm n m b c o).1
      = if 0 < m ∧ m < c then c
        else match o with
             | HandlerOutcome.ok => c
             | HandlerOutcome.panic _ => wrap32 (c + 1) := by
  unfold executeTimerWithRecovery
  split
  · rfl
  · cases o <;> rfl

theorem tick_execCount (hm : Bool) (n : String) (m b c : Int)
    (o : HandlerOutcome) :
    execCount (executeTimerWithRecovery hm n m b c o).2
      = if 0 < m ∧ m < c then 0 else 1 := by
  unfold executeTimerWithRecovery execCount
  split
  · simp [List.countP, List.countP.go, isHandlerInvoked]
  · cases o <;> cases hm <;> by_cases hb : 0 < b <;>
      simp [hb, List.countP_append, List.countP_cons, isHandlerInvoked,
        List.countP, List.countP.go, List.countP_nil]

theorem tick_handlerInvoked_mem (hm : Bool) (n : String) (m b c : Int)
    (o : HandlerOutcome) :
    SchedEvent.handlerInvoked n ∈ (executeTimerWithRecovery hm n m b c o).2
      ↔ ¬(0 < m ∧ m < c) := by
  unfold executeTimerWithRecovery
  by_cases h : 0 < m ∧ m < c
  · simp [h]
  · cases o <;> cases hm <;> by_cases hb : 0 < b <;> simp [h, hb]

theorem tick_recordRun_mem (n : String) (m b c : Int) (o : HandlerOutcome) :
    SchedEvent.recordTimerRun n ∈ (executeTimerWithRecovery true n m b c o).2
      ↔ ¬(0 < m ∧ m < c) := by
  unfold executeTimerWithRecovery
  by_cases h : 0 < m ∧ m < c
  · simp [h]
  · cases o <;> by_cases hb : 0 < b <;> simp [h, hb]

theorem runTicks_execCount_cons (hm : Bool) (n : String) (m b c : Int)
    (o : HandlerOutcome) (os : List HandlerOutcome) :
    execCount (runTimerTicks hm n m b (o :: os) c).2
      = execCount (executeTimerWithRecovery hm n m b c o).2
        + execCount (runTimerTicks hm n m b os
            (executeTimerWithRecovery hm n m b c o).1).2 := by
  simp [runTimerTicks, execCount, List.countP_append]

theorem runTicks_suppressed (hm : Bool) (n : String) (m b : Int)
    (os : List HandlerOutcome) :
    ∀ c : Int, 0 < m → m < c →
      execCount (runTimerTicks hm n m b os c).2 = 0 := by
  induction os with
  | nil => intro c _ _; simp [runTimerTicks, execCount]
  | cons o os ih =>
    intro c h0 hc
    rw [runTicks_execCount_cons, tick_execCount, tick_fst, if_pos ⟨h0, hc⟩,
      if_pos ⟨h0, hc⟩, ih c h0 hc]

theorem runTicks_no_limit (hm : Bool) (n : String) (m b : Int)
    (hmle : m ≤ 0) (os : List HandlerOutcome) :
    ∀ c : Int, execCount (runTimerTicks hm n m b os c).2 = os.length := by
  induction os with
  | nil => intro c; simp [runTimerTicks, execCount]
  | cons o os ih =>
    intro c
    have hcond : ¬(0 < m ∧ m < c) := by omega
    rw [runTicks_execCount_cons, tick_execCount, if_neg hcond, ih]
    simp only [List.length_cons]
    omega

theorem runTicks_huge (hm : Bool) (n : String) (m b : Int)
    (hmge : 2 ^ 31 - 1 ≤ m) (os : List HandlerOutcome) :
    ∀ c : Int, -2 ^ 31 ≤ c → c ≤ 2 ^ 31 - 1 →
      execCount (runTimerTicks hm n m b os c).2 = os.length := by
  induction os with
  | nil => intro c _ _; simp [runTimerTicks, execCount]
  | cons o os ih =>
    intro c hlb hub
    have hcond : ¬(0 < m ∧ m < c) := by omega
    rw [runTicks_execCount_cons, tick_execCount, if_neg hcond, tick_fst,
      if_neg hcond]
    cases o with
    | ok =>
      rw [ih c hlb hub]
      simp only [List.length_cons]
      omega
    | panic msg =>
      rw [ih (wrap32 (c + 1)) (wrap32_lb _) (wrap32_ub _)]
      simp only [List.length_cons]
      omega

theorem runTicks_climb (hm : Bool) (n : String) (m b : Int)
    (h0 : 0 < m) (h31 : m + 1 < 2 ^ 31) (os : List HandlerOutcome) :
    ∀ c : Int, 0 ≤ c → c ≤ m → (∀ o ∈ os, o.isPanic = true) →
      execCount (runTimerTicks hm n m b os c).2
        = min os.length ((m - c).toNat + 1) := by
  induction os with
  | nil => intro c _ _ _; simp [runTimerTicks, execCount]
  | cons o os ih =>
    intro c hc0 hcm hpan
    have hcond : ¬(0 < m ∧ m < c) := by omega
    obtain ⟨msg, rfl⟩ : ∃ msg, o = HandlerOutcome.panic msg := by
      cases o with
      | ok =>
        have := hpan HandlerOutcome.ok (List.mem_cons_self _ _)
        simp [HandlerOutcome.isPanic] at this
      | panic msg => exact ⟨msg, rfl⟩
    have hwrap : wrap32 (c + 1) = c + 1 := wrap32_eq _ (by omega) (by omega)
    rw [runTicks_execCount_cons, tick_execCount, if_neg hcond, tick_fst,
      if_neg hcond]
    show 1 + execCount (runTimerTicks hm n m b os (wrap32 (c + 1))).2 = _
    rw [hwrap]
    by_cases hlt : c + 1 ≤ m
    · rw [ih (c + 1) (by omega) hlt
        (fun u hu => hpan u (List.mem_cons_of_mem _ hu))]
      simp only [List.length_cons]
      omega
    · have hceq : c = m := by omega
      rw [runTicks_suppressed hm n m b os (c + 1) h0 (by omega)]
      simp only [List.length_cons]
      omega

theorem tickTimerNamed_sibling (hm : Bool) (o : HandlerOutcome)
    (name : String) :
    ∀ (ts : List TimerReg) (u : TimerReg), u ∈ ts → u.name ≠ name →
      u ∈ (tickTimerNamed hm o name ts).1 := by
  intro ts
  induction ts with
  | nil => intro u hu; simp at hu
  | cons t ts ih =>
    intro u hu hne
    unfold tickTimerNamed
    by_cases ht : t.name = name
    · rw [if_pos ht]
      rcases List.mem_cons.1 hu with rfl | hu'
      · exact absurd ht hne
      · exact List.mem_cons_of_mem _ hu'
    · rw [if_neg ht]
      rcases List.mem_cons.1 hu with rfl | hu'
      · exact List.mem_cons_self _ _
      · exact List.mem_cons_of_mem _ (ih u hu' hne)

theorem addTimer_existing (s : Scheduler) (name : String) (i : Int)
    (hid : Nat) (h : (s.timers.map TimerReg.name).contains name = true) :
    AddTimer s name i hid
      = (s, some ("timer " ++ name ++ " already exists")) := by
  unfold AddTimer
  rw [if_pos h]

theorem addTimer_fresh (s : Scheduler) (name : String) (i : Int) (hid : Nat)
    (h : ¬(s.timers.map TimerReg.name).contains name = true) :
    AddTimer s name i hid
      = ({ s with timers := s.timers
            ++ [{ name := name, interval := i, handlerId := hid,
                  panicCount := 0, maxRestarts := s.maxRestarts,
                  backoffSeconds := s.backoffSeconds }] },
         none) := by
  unfold AddTimer
  rw [if_neg h]

theorem start_of_running (s : Scheduler) (h : s.ctxSet = true) :
    Start s = ⟨s, [], some "scheduler already running"⟩ := by
  unfold Start
  rw [if_pos h]

theorem start_of_idle (s : Scheduler) (h : s.ctxSet = false) :
    (Start s).err = none ∧ (Start s).sched.ctxSet = true := by
  unfold Start
  rw [if_neg (by simp [h])]
  by_cases he : s.timers.isEmpty <;> simp [he]

theorem stop_preserves_ctx (s : Scheduler) (d : Bool) :
    (Stop s d).sched.ctxSet = s.ctxSet := by
  unfold Stop
  by_cases hc : s.cancelSet <;> simp [hc]

/-- Claim C1: a crashing handler invocation is recovered inside the
per-invocation isolation scope: the timer `panicCount` is incremented by
exactly one (as an `int32`), the panic metric is recorded, the tick loop
continues with the remaining ticks, and every sibling registry entry is
left untouched.  The recovery never escapes: `executeTimerWithRecovery`
returns an ordinary value for a panicking outcome, so nothing reaches the
caller of `Start`. -/
theorem scheduler_handler_crash_contained :
    ∀ (n msg : String) (m b c : Int),
      ¬(0 < m ∧ m < c) →
      (executeTimerWithRecovery true n m b c (HandlerOutcome.panic msg)).1
          = wrap32 (c + 1)
      ∧ (0 ≤ c → c + 1 < 2 ^ 31 →
          (executeTimerWithRecovery true n m b c (HandlerOutcome.panic msg)).1
            = c + 1)
      ∧ SchedEvent.recordTimerPanic n
          ∈ (executeTimerWithRecovery true n m b c (HandlerOutcome.panic msg)).2
      ∧ SchedEvent.logError "Timer panic recovered" n
          ∈ (executeTimerWithRecovery true n m b c (HandlerOutcome.panic msg)).2
      ∧ (∀ os : List HandlerOutcome,
          runTimerTicks true n m b (HandlerOutcome.panic msg :: os) c
            = ((runTimerTicks true n m b os (wrap32 (c + 1))).1,
               (executeTimerWithRecovery true n m b c
                  (HandlerOutcome.panic msg)).2
                 ++ (runTimerTicks true n m b os (wrap32 (c + 1))).2))
      ∧ (∀ (ts : List TimerReg) (hm : Bool) (o : HandlerOutcome)
            (u : TimerReg), u ∈ ts → u.name ≠ n →
          u ∈ (tickTimerNamed hm o n ts).1) := by
  intro n msg m b c h
  have hfst : (executeTimerWithRecovery true n m b c
      (HandlerOutcome.panic msg)).1 = wrap32 (c + 1) := by
    rw [tick_fst, if_neg h]
  refine ⟨hfst, ?_, ?_, ?_, ?_, fun ts hm o u => tickTimerNamed_sibling hm o n ts u⟩
  · intro hc0 hc31
    rw [hfst, wrap32_eq (c + 1) (by omega) hc31]
  · unfold executeTimerWithRecovery
    rw [if_neg h]
    by_cases hb : 0 < b <;> simp [hb]
  · unfold executeTimerWithRecovery
    rw [if_neg h]
    by_cases hb : 0 < b <;> simp [hb]
  · intro os
    show (_, _) = _
    rw [hfst]

/-- Witness for C1 at a concrete input: one crashing tick of timer `t` with
`maxRestarts = 3`, `backoffSeconds = 0` and `panicCount = 0`. -/
theorem scheduler_handler_crash_contained_witness :
    (executeTimerWithRecovery true "t" 3 0 0 (HandlerOutcome.panic "boom")).1
        = 0 + 1
    ∧ SchedEvent.recordTimerPanic "t"
        ∈ (executeTimerWithRecovery true "t" 3 0 0
             (HandlerOutcome.panic "boom")).2 :=
  ⟨(scheduler_handler_crash_contained "t" "boom" 3 0 0 (by decide)).2.1
      (by decide) (by decide),
   (scheduler_handler_crash_contained "t" "boom" 3 0 0 (by decide)).2.2.1⟩

/-- Claim C2: a tick skips the handler exactly when `maxRestarts > 0` and
`panicCount` strictly exceeds `maxRestarts`; with `maxRestarts = 0` every
tick executes the handler (unlimited); and an always-crashing handler
starting from a zero `panicCount` is executed at least
`min ticks (maxRestarts + 1)` times, hence at least `maxRestarts + 1`
times once enough ticks fire. -/
theorem scheduler_max_restarts_bound :
    (∀ (hm : Bool) (n : String) (m b c : Int) (o : HandlerOutcome),
        SchedEvent.handlerInvoked n
            ∈ (executeTimerWithRecovery hm n m b c o).2
          ↔ ¬(0 < m ∧ m < c))
  ∧ (∀ (hm : Bool) (n : String) (b : Int) (os : List HandlerOutcome),
        execCount (runTimerTicks hm n 0 b os 0).2 = os.length)
  ∧ (∀ (hm : Bool) (n : String) (m b : Int) (os : List HandlerOutcome),
        0 ≤ m → (∀ o ∈ os, o.isPanic = true) →
        min os.length (m.toNat + 1)
          ≤ execCount (runTimerTicks hm n m b os 0).2) := by
  refine ⟨tick_handlerInvoked_mem,
    fun hm n b os => runTicks_no_limit hm n 0 b le_rfl os 0, ?_⟩
  intro hm n m b os hm0 hpan
  by_cases hz : m ≤ 0
  · rw [runTicks_no_limit hm n m b hz os 0]
    omega
  · push_neg at hz
    by_cases h31 : m + 1 < 2 ^ 31
    · rw [runTicks_climb hm n m b hz h31 os 0 le_rfl (le_of_lt hz) hpan]
      omega
    · rw [runTicks_huge hm n m b (by omega) os 0 (by norm_num) (by norm_num)]
      omega

/-- Witness for C2: five always-crashing ticks with `maxRestarts = 2`
execute the handler at least three times. -/
theorem scheduler_max_restarts_bound_witness :
    min (List.replicate 5 (HandlerOutcome.panic "p")).length ((2 : Int).toNat + 1)
      ≤ execCount (runTimerTicks true "t" 2 0
          (List.replicate 5 (HandlerOutcome.panic "p")) 0).2 :=
  scheduler_max_restarts_bound.2.2 true "t" 2 0
    (List.replicate 5 (HandlerOutcome.panic "p")) (by decide) (by decide)

/-- Claim C5: a second `Start` while the run context is set returns the
already-running error and has no side effects: registry, active-timer
counter and run context are unchanged and no loop is spawned. -/
theorem scheduler_start_already_running :
    ∀ s : Scheduler, s.ctxSet = true →
      Start s = ⟨s, [], some "scheduler already running"⟩
      ∧ (Start s).sched.timers = s.timers
      ∧ (Start s).sched.activeTimers = s.activeTimers
      ∧ (Start s).sched.ctxSet = s.ctxSet
      ∧ (Start s).spawned = [] := by
  intro s h
  have he := start_of_running s h
  exact ⟨he, by rw [he], by rw [he], by rw [he], by rw [he]⟩

/-- Witness for C5 at a concrete running scheduler. -/
theorem scheduler_start_already_running_witness :
    Start ⟨[], 3, 0, true, true, false, 0⟩
      = ⟨⟨[], 3, 0, true, true, false, 0⟩, [],
         some "scheduler already running"⟩ :=
  (scheduler_start_already_running ⟨[], 3, 0, true, true, false, 0⟩ rfl).1

/-- Claim C6: `AddTimer` with an existing name returns the duplicate-name
error and changes no state, and in the two-call scenario the second call
leaves `GetTimerCount` at one. -/
theorem scheduler_addTimer_duplicate :
    (∀ (s : Scheduler) (name : String) (i : Int) (hid : Nat),
        (s.timers.map TimerReg.name).contains name = true →
        AddTimer s name i hid
            = (s, some ("timer " ++ name ++ " already exists"))
        ∧ GetTimerCount (AddTimer s name i hid).1 = GetTimerCount s)
  ∧ (∀ (s : Scheduler) (name : String) (i1 i2 : Int) (h1 h2 : Nat),
        s.timers = [] →
        (AddTimer s name i1 h1).2 = none
        ∧ GetTimerCount (AddTimer s name i1 h1).1 = 1
        ∧ (AddTimer (AddTimer s name i1 h1).1 name i2 h2).1
            = (AddTimer s name i1 h1).1
        ∧ (AddTimer (AddTimer s name i1 h1).1 name i2 h2).2
            = some ("timer " ++ name ++ " already exists")
        ∧ GetTimerCount (AddTimer (AddTimer s name i1 h1).1 name i2 h2).1
            = 1) := by
  constructor
  · intro s name i hid hdup
    have he := addTimer_existing s name i hid hdup
    exact ⟨he, by rw [he]⟩
  · intro s name i1 i2 h1 h2 hs
    have hfresh := addTimer_fresh s name i1 h1 (by simp [hs])
    have hdup2 : ((AddTimer s name i1 h1).1.timers.map
        TimerReg.name).contains name = true := by
      rw [hfresh]
      simp [hs]
    have he2 := addTimer_existing (AddTimer s name i1 h1).1 name i2 h2 hdup2
    refine ⟨by rw [hfresh], ?_, by rw [he2], by rw [he2], ?_⟩
    · rw [hfresh]; simp [GetTimerCount, hs]
    · rw [he2, hfresh]; simp [GetTimerCount, hs]

/-- Witness for C6: adding the same name twice to a fresh scheduler. -/
theorem scheduler_addTimer_duplicate_witness :
    (AddTimer (AddTimer (New 3 0) "dup" 1000 0).1 "dup" 1000 1).2
        = some ("timer " ++ "dup" ++ " already exists")
    ∧ GetTimerCount (AddTimer (AddTimer (New 3 0) "dup" 1000 0).1
        "dup" 1000 1).1 = 1 :=
  ⟨(scheduler_addTimer_duplicate.2 (New 3 0) "dup" 1000 1000 0 1 rfl).2.2.2.1,
   (scheduler_addTimer_duplicate.2 (New 3 0) "dup" 1000 1000 0 1 rfl).2.2.2.2⟩

/-- Claim C7: `Stop` returns `nil` in both exit paths; the drained path
logs a graceful-stop message, the deadline path logs the timeout warning
instead of returning it. -/
theorem scheduler_stop_returns_nil :
    ∀ s : Scheduler,
      (Stop s true).err = none
      ∧ (Stop s false).err = none
      ∧ SchedEvent.logInfo "All timers stopped gracefully"
          ∈ (Stop s true).events
      ∧ SchedEvent.logWarn "Timeout waiting for timers to stop"
          ∈ (Stop s false).events := by
  intro s
  refine ⟨rfl, rfl, ?_, ?_⟩ <;> simp [Stop]

/-- Claim C9: the scheduler is single-use — `Stop` never clears the run
context, so after one successful `Start` every later `Start` (before or
after `Stop`) returns the already-running error without side effects. -/
theorem scheduler_single_use :
    (∀ (s : Scheduler) (d : Bool), (Stop s d).sched.ctxSet = s.ctxSet)
  ∧ (∀ (s : Scheduler) (d : Bool), s.ctxSet = false →
      (Start s).err = none
      ∧ (Start s).sched.ctxSet = true
      ∧ (Start (Start s).sched).err = some "scheduler already running"
      ∧ (Start ((Stop (Start s).sched d).sched)).err
          = some "scheduler already running"
      ∧ (Start ((Stop (Start s).sched d).sched)).sched
          = (Stop (Start s).sched d).sched) := by
  refine ⟨stop_preserves_ctx, ?_⟩
  intro s d h
  obtain ⟨herr, hctx⟩ := start_of_idle s h
  have hctx2 : ((Stop (Start s).sched d).sched).ctxSet = true := by
    rw [stop_preserves_ctx, hctx]
  have h2 := start_of_running _ hctx
  have h3 := start_of_running _ hctx2
  exact ⟨herr, hctx, by rw [h2], by rw [h3], by rw [h3]⟩

/-- Witness for C9: a fresh scheduler, started, stopped, started again. -/
theorem scheduler_single_use_witness :
    (Start (New 3 0)).err = none
    ∧ (Start ((Stop (Start (New 3 0)).sched true).sched)).err
        = some "scheduler already running" :=
  ⟨(scheduler_single_use.2 (New 3 0) true rfl).1,
   (scheduler_single_use.2 (New 3 0) true rfl).2.2.2.1⟩

/-- Counterexample to C8 as stated: on a crashing, non-suppressed tick the
run metric is still recorded — the trace of a tick whose handler panics
contains both the `RecordTimerRun` call and the panic-recovery log. -/
theorem scheduler_run_metric_on_crash_cex :
    SchedEvent.recordTimerRun "t"
        ∈ (executeTimerWithRecovery true "t" 3 0 0
             (HandlerOutcome.panic "boom")).2
    ∧ SchedEvent.logError "Timer panic recovered" "t"
        ∈ (executeTimerWithRecovery true "t" 3 0 0
             (HandlerOutcome.panic "boom")).2 := by
  decide

/-- Claim C8 (amended): the run metric is recorded exactly for the
non-suppressed ticks — immediately before the handler is invoked and hence
regardless of whether the invocation subsequently crashes; a suppressed
tick records nothing. -/
theorem scheduler_run_metric_every_executed_tick :
    (∀ (n : String) (m b c : Int) (o : HandlerOutcome),
        SchedEvent.recordTimerRun n
            ∈ (executeTimerWithRecovery true n m b c o).2
          ↔ ¬(0 < m ∧ m < c))
  ∧ (∀ (n msg : String) (m b c : Int), ¬(0 < m ∧ m < c) →
        (executeTimerWithRecovery true n m b c (HandlerOutcome.panic msg)).2
          = [SchedEvent.recordTimerRun n, SchedEvent.handlerInvoked n,
             SchedEvent.logError "Timer panic recovered" n,
             SchedEvent.recordTimerPanic n]
              ++ (if 0 < b then [SchedEvent.sleep b] else [])) := by
  refine ⟨tick_recordRun_mem, ?_⟩
  intro n msg m b c h
  unfold executeTimerWithRecovery
  rw [if_neg h]
  by_cases hb : 0 < b <;> simp [hb]

/-- Witness for C8 (amended) at a concrete crashing tick. -/
theorem scheduler_run_metric_every_executed_tick_witness :
    (executeTimerWithRecovery true "t" 3 0 0 (HandlerOutcome.panic "boom")).2
      = [SchedEvent.recordTimerRun "t", SchedEvent.handlerInvoked "t",
         SchedEvent.logError "Timer panic recovered" "t",
         SchedEvent.recordTimerPanic "t"]
          ++ (if (0 : Int) < 0 then [SchedEvent.sleep 0] else []) :=
  scheduler_run_metric_every_executed_tick.2 "t" "boom" 3 0 0 (by decide)

end Sched
